import Mathlib

/-!
Shallow embedding of the two source files of python-gerrit-api that are under
verification: gerrit/projects/branches.py (Branch, Branches) and
gerrit/projects/commit.py (Commit).

Strings are embedded as lists of characters (Str).  The HTTP layer is
represented explicitly: every operation that issues requests returns the list
of requests it makes, and the decoded body of a server response is passed in
as an explicit oracle argument, so that results can be stated as functions of
the response.  Mutable object state (the Branches snapshot _data) is passed
and returned explicitly.
-/

/-- Python strings, embedded as lists of characters. -/
abbrev Str := List Char

/-- Turn a Lean string literal into the embedded string type. -/
def str (s : String) : Str := s.data

/-- The class constant 'refs/heads/' shared by Branch and Branches
(both call it branch_prefix in the source). -/
def refsHeads : Str := str "refs/heads/"

/-- The reserved ref that Branches.poll tries to filter out of listings. -/
def metaConfig : Str := str "refs/meta/config"

/-- A raw JSON branch record as returned by the server's list-branches call.
Python compares these records with dict equality, which is structural here. -/
structure BranchRecord where
  ref : Str
  revision : Str := []
  web_links : List Str := []
  can_delete : Bool := true
deriving DecidableEq, Repr

/-- HTTP method of a request issued through gerrit.make_call. -/
inductive Method where
  | get | put | post | delete
deriving DecidableEq, Repr

/-- One request issued through gerrit.make_call: the method, the endpoint
path, and the keyword-expanded payload. -/
structure Request where
  method : Method
  endpoint : Str
  payload : List (Str × Str)
deriving DecidableEq, Repr

/-- A Python value passed as an operation input: either a mapping (dict,
abstracted as a list of key-value pairs) or some non-mapping value,
abstracted as text. -/
inductive Value where
  | mapping (pairs : List (Str × Str))
  | text (s : Str)
deriving DecidableEq, Repr

def Value.isMapping : Value → Bool
  | .mapping _ => true
  | .text _ => false

def Value.entries : Value → List (Str × Str)
  | .mapping ps => ps
  | .text _ => []

/-- Modelled from the spec: the check decorator of gerrit.utils.common
(code of this repository, but not under src/) validates that an argument
annotated as a dict really is a mapping, and signals InvalidArgument before
any network call when it is not (spec section 7, fail-fast local validation). -/
def check (v : Value) : Bool := v.isMapping

/-- The errors this layer can signal locally. -/
inductive GerritError where
  | keyError (msg : Str)
  | unknownBranch (ref : Str)
  | invalidArgument
deriving DecidableEq, Repr

/-- The Branch model: the declared attribute list is
ref, web_links, revision, can_delete, project, gerrit; the gerrit session
collaborator carries no data relevant here and is omitted. -/
structure Branch where
  ref : Str
  revision : Str := []
  web_links : List Str := []
  can_delete : Bool := true
  project : Str := []
deriving DecidableEq, Repr

/-- Modelled from the spec: BaseModel.parse (gerrit/utils/models.py, code of
this repository not under src/) builds a typed model from a raw JSON record
plus context attributes (project, gerrit), projecting the declared
attribute list (spec section 6). -/
def Branch.parse (row : BranchRecord) (project : Str) : Branch :=
  { ref := row.ref, revision := row.revision, web_links := row.web_links,
    can_delete := row.can_delete, project := project }

/-- Python s.replace(old, new), fuelled so that it is structurally recursive:
scan left to right, replacing each non-overlapping occurrence of old.  The
fuel never runs out when it is at least s.length (each step consumes at least
one character).  The source only ever calls replace with a nonempty old. -/
def pyReplaceFuel (old new : Str) : Nat → Str → Str
  | _, [] => []
  | 0, s => s
  | fuel + 1, c :: cs =>
    if old ≠ [] ∧ old.isPrefixOf (c :: cs) then
      new ++ pyReplaceFuel old new fuel (List.drop (old.length - 1) cs)
    else
      c :: pyReplaceFuel old new fuel cs

/-- Python s.replace(old, new) for nonempty old. -/
def pyReplace (old new s : Str) : Str := pyReplaceFuel old new s.length s

/-- Does pat occur as a contiguous substring? -/
def occursIn (pat : Str) : Str → Bool
  | [] => pat.isEmpty
  | c :: cs => pat.isPrefixOf (c :: cs) || occursIn pat cs

/-- Branch.name, a derived property: self.ref.replace(self.branch_prefix, ''). -/
def Branch.name (b : Branch) : Str := pyReplace refsHeads [] b.ref

/-- Bytes CPython's urllib.parse.quote never escapes regardless of the safe
argument: ASCII letters, digits, and underscore, dot, hyphen, tilde. -/
def alwaysSafeByte (b : Nat) : Bool :=
  (65 ≤ b && b ≤ 90) || (97 ≤ b && b ≤ 122) || (48 ≤ b && b ≤ 57) ||
    b == 95 || b == 46 || b == 45 || b == 126

/-- Uppercase hexadecimal digit for a value below 16. -/
def hexDigit (n : Nat) : Char :=
  if n < 10 then Char.ofNat (48 + n) else Char.ofNat (55 + n)

/-- UTF-8 encoding of one character, as CPython's str.encode produces it. -/
def utf8Bytes (c : Char) : List Nat :=
  if c.toNat < 128 then [c.toNat]
  else if c.toNat < 2048 then [192 + c.toNat / 64, 128 + c.toNat % 64]
  else if c.toNat < 65536 then
    [224 + c.toNat / 4096, 128 + c.toNat / 64 % 64, 128 + c.toNat % 64]
  else
    [240 + c.toNat / 262144, 128 + c.toNat / 4096 % 64, 128 + c.toNat / 64 % 64,
      128 + c.toNat % 64]

/-- How urllib.parse.quote with safe='' renders one byte: always-safe bytes
pass through, every other byte becomes a percent-escape with uppercase hex. -/
def quoteByte (b : Nat) : Str :=
  if alwaysSafeByte b then [Char.ofNat b] else ['%', hexDigit (b / 16), hexDigit (b % 16)]

/-- How urllib.parse.quote with safe='' renders one character. -/
def quoteChar (c : Char) : Str := ((utf8Bytes c).map quoteByte).flatten

/-- urllib.parse.quote(s, safe='') from the Python standard library: UTF-8
encode, keep the always-safe bytes, and write every other byte as a
percent-escape; the empty safe argument adds no further safe characters. -/
def pyQuote (s : Str) : Str := (s.map quoteChar).flatten

/-- Branch.get_file_content: builds the endpoint from the fixed template with
the file path quoted, issues one GET, and returns the decoded response
unchanged.  The decoded response body is the oracle argument. -/
def Branch.get_file_content (b : Branch) (file : Str) (decoded : Str) :
    Str × List Request :=
  let req : Request :=
    { method := .get,
      endpoint := str "/projects/" ++ b.project ++ str "/branches/" ++ Branch.name b ++
        str "/files/" ++ pyQuote file ++ str "/content",
      payload := [] }
  (decoded, [req])

/-- Branch.get_mergeable_information, guarded by the check decorator. -/
def Branch.get_mergeable_information (b : Branch) (mergeInput : Value) (decoded : Str) :
    Except GerritError Str × List Request :=
  if check mergeInput = false then (.error .invalidArgument, [])
  else
    let req : Request :=
      { method := .get,
        endpoint := str "/projects/" ++ b.project ++ str "/branches/" ++ Branch.name b ++
          str "/mergeable",
        payload := mergeInput.entries }
    (.ok decoded, [req])

/-- Branch.delete: issues one DELETE for this branch; it touches no snapshot. -/
def Branch.delete (b : Branch) : List Request :=
  let req : Request :=
    { method := .delete,
      endpoint := str "/projects/" ++ b.project ++ str "/branches/" ++ Branch.name b,
      payload := [] }
  [req]

/-- The Commit model with its declared attribute list. -/
structure Commit where
  commit : Str
  author : Str := []
  committer : Str := []
  message : Str := []
  parents : List Str := []
  subject : Str := []
  project : Str := []
deriving DecidableEq, Repr

/-- Commit.get_file_content: same contract as Branch.get_file_content, scoped
to this commit. -/
def Commit.get_file_content (c : Commit) (file : Str) (decoded : Str) :
    Str × List Request :=
  let req : Request :=
    { method := .get,
      endpoint := str "/projects/" ++ c.project ++ str "/commits/" ++ c.commit ++
        str "/files/" ++ pyQuote file ++ str "/content",
      payload := [] }
  (decoded, [req])

/-- Commit.cherry_pick, guarded by the check decorator. -/
def Commit.cherry_pick (c : Commit) (cherryPickInput : Value) (decoded : Str) :
    Except GerritError Str × List Request :=
  if check cherryPickInput = false then (.error .invalidArgument, [])
  else
    let req : Request :=
      { method := .post,
        endpoint := str "/projects/" ++ c.project ++ str "/commits/" ++ c.commit ++
          str "/cherrypick",
        payload := cherryPickInput.entries }
    (.ok decoded, [req])

/-- The Branches collection: a project identifier and the cached snapshot. -/
structure Branches where
  project : Str
  _data : List BranchRecord
deriving DecidableEq, Repr

/-- Python list.remove(x): drop the first element equal to x (no-op here when
absent; the source only removes elements it just read from the list). -/
def removeFirst (x : BranchRecord) : List BranchRecord → List BranchRecord
  | [] => []
  | y :: ys => if y = x then ys else y :: removeFirst x ys

/-- The filtering loop of Branches.poll exactly as written in the source:
a for loop over result that calls result.remove(item) on matches.  CPython's
list iterator advances an index while the list shrinks under it, so the
element after a removed one is skipped.  The fuel (the initial length) never
runs out before the index passes the current length. -/
def pollLoop : Nat → List BranchRecord → Nat → List BranchRecord
  | 0, result, _ => result
  | fuel + 1, result, i =>
    if h : i < result.length then
      if result[i].ref = metaConfig then
        pollLoop fuel (removeFirst result[i] result) (i + 1)
      else
        pollLoop fuel result (i + 1)
    else
      result

/-- Branches.poll: one GET on the list endpoint, then the filtering loop over
the decoded response (the oracle argument). -/
def Branches.poll (project : Str) (serverResult : List BranchRecord) :
    List BranchRecord × List Request :=
  let req : Request :=
    { method := .get, endpoint := str "/projects/" ++ project ++ str "/branches/",
      payload := [] }
  (pollLoop serverResult.length serverResult 0, [req])

/-- Branches.__init__: store the polled snapshot as _data. -/
def Branches.init (project : Str) (serverResult : List BranchRecord) :
    Branches × List Request :=
  ({ project := project, _data := (Branches.poll project serverResult).1 },
   (Branches.poll project serverResult).2)

/-- Branches.iterkeys: the ref of each cached record, in snapshot order. -/
def Branches.iterkeys (b : Branches) : List Str :=
  b._data.map BranchRecord.ref

/-- Branches.keys: the materialized list of refs. -/
def Branches.keys (b : Branches) : List Str := Branches.iterkeys b

/-- Branches.__len__: len(self.keys()). -/
def Branches.len (b : Branches) : Nat := (Branches.keys b).length

/-- Branches.__contains__: ref in self.keys(). -/
def Branches.contains (b : Branches) (ref : Str) : Bool :=
  decide (ref ∈ Branches.keys b)

/-- Branches.__iter__: one Branch per cached record, in snapshot order. -/
def Branches.iter (b : Branches) : List Branch :=
  b._data.map (fun row => Branch.parse row b.project)

/-- The outcome of a collection operation: its result, the collection state
afterwards, and the requests it issued. -/
structure EffResult (α : Type) where
  result : Except GerritError α
  post : Branches
  requests : List Request

/-- Branches.__getitem__: prefix contract, then lookup in the cached
snapshot; no network traffic in any branch. -/
def Branches.getItem (b : Branches) (ref : Str) : EffResult Branch :=
  if refsHeads.isPrefixOf ref = false then
    { result := .error (.keyError (str "branch ref should start with " ++ refsHeads)),
      post := b, requests := [] }
  else
    match b._data.filter (fun row => row.ref == ref) with
    | [] => { result := .error (.unknownBranch ref), post := b, requests := [] }
    | row :: _ => { result := .ok (Branch.parse row b.project), post := b, requests := [] }

/-- Branches.create, guarded by the check decorator: short-circuit to
self[ref] when the computed ref is already cached, otherwise one PUT whose
decoded response (the oracle argument resp) is parsed into the result.  The
snapshot is never written. -/
def Branches.create (b : Branches) (name : Str) (branchInput : Value)
    (resp : BranchRecord) : EffResult Branch :=
  if check branchInput = false then
    { result := .error .invalidArgument, post := b, requests := [] }
  else if (refsHeads ++ name) ∈ Branches.keys b then
    Branches.getItem b (refsHeads ++ name)
  else
    let req : Request :=
      { method := .put,
        endpoint := str "/projects/" ++ b.project ++ str "/branches/" ++ name,
        payload := branchInput.entries }
    { result := .ok (Branch.parse resp b.project), post := b, requests := [req] }

/-- Branches.__setitem__: prefix contract, then delegate to create with
key.replace(branch_prefix, '') and discard its result. -/
def Branches.setItem (b : Branches) (key : Str) (value : Value)
    (resp : BranchRecord) : EffResult Unit :=
  if refsHeads.isPrefixOf key = false then
    { result := .error (.keyError (str "branch ref should start with " ++ refsHeads)),
      post := b, requests := [] }
  else
    let r := Branches.create b (pyReplace refsHeads [] key) value resp
    { result := r.result.map (fun _ => ()), post := r.post, requests := r.requests }

/-- Branches.__delitem__: self[key].delete(); the snapshot is never written. -/
def Branches.delItem (b : Branches) (key : Str) : EffResult Unit :=
  let g := Branches.getItem b key
  match g.result with
  | .error e => { result := .error e, post := g.post, requests := g.requests }
  | .ok br => { result := .ok (), post := g.post, requests := g.requests ++ Branch.delete br }

/-! Concrete fixtures used by witnesses and counterexamples. -/

def masterRecord : BranchRecord := { ref := str "refs/heads/master", revision := str "abc123" }

def configRecord : BranchRecord := { ref := metaConfig, revision := str "def456" }

def recordB : BranchRecord := { ref := str "refs/heads/b", revision := str "abc123" }

def respB : BranchRecord := { ref := str "refs/heads/b", revision := str "cafe01" }

def respX : BranchRecord := { ref := str "refs/heads/x", revision := str "beef02" }

def sampleBranches : Branches := { project := str "p", _data := [masterRecord] }

def cachedBranches : Branches := { project := str "p", _data := [masterRecord, recordB] }

def sampleInput : Value := Value.mapping [(str "revision", str "abc123")]

def otherInput : Value := Value.mapping [(str "revision", str "ffffff")]

def badInput : Value := Value.text (str "not-a-mapping")

def mainBranch : Branch := { ref := str "refs/heads/main", project := str "p" }

def sampleCommit : Commit := { commit := str "deadbeef", project := str "p" }

/-! Helper lemmas about the embedded operations. -/

theorem getItem_post (b : Branches) (ref : Str) : (Branches.getItem b ref).post = b := by
  unfold Branches.getItem
  split
  · rfl
  · split <;> rfl

theorem getItem_requests (b : Branches) (ref : Str) :
    (Branches.getItem b ref).requests = [] := by
  unfold Branches.getItem
  split
  · rfl
  · split <;> rfl

theorem create_post (b : Branches) (name : Str) (v : Value) (resp : BranchRecord) :
    (Branches.create b name v resp).post = b := by
  unfold Branches.create
  split
  · rfl
  · split
    · exact getItem_post b _
    · rfl

theorem delItem_post (b : Branches) (key : Str) : (Branches.delItem b key).post = b := by
  unfold Branches.delItem
  dsimp only
  split <;> simp [getItem_post]

theorem isPrefixOf_append_self (l r : Str) : l.isPrefixOf (l ++ r) = true := by
  induction l with
  | nil => simp [List.isPrefixOf]
  | cons c cs ih => simp [List.isPrefixOf, ih]

theorem pyReplaceFuel_not_occurs (old new : Str) :
    ∀ fuel : Nat, ∀ s : Str, occursIn old s = false → pyReplaceFuel old new fuel s = s := by
  intro fuel
  induction fuel with
  | zero =>
    intro s _
    cases s <;> rfl
  | succ f ih =>
    intro s h
    cases s with
    | nil => rfl
    | cons c cs =>
      have h2 : old.isPrefixOf (c :: cs) = false ∧ occursIn old cs = false := by
        simpa [occursIn] using h
      simp only [pyReplaceFuel]
      rw [if_neg]
      · rw [ih cs h2.2]
      · intro hc
        exact absurd hc.2 (by simp [h2.1])

theorem pyReplace_not_occurs (old new s : Str) (h : occursIn old s = false) :
    pyReplace old new s = s :=
  pyReplaceFuel_not_occurs old new s.length s h

theorem pyReplaceFuel_congr (old new : Str) :
    ∀ f1 f2 s, s.length ≤ f1 → s.length ≤ f2 →
      pyReplaceFuel old new f1 s = pyReplaceFuel old new f2 s := by
  intro f1
  induction f1 with
  | zero =>
    intro f2 s h1 _
    have hs : s = [] := List.eq_nil_of_length_eq_zero (Nat.le_zero.mp h1)
    subst hs
    cases f2 <;> rfl
  | succ f ih =>
    intro f2 s h1 h2
    cases s with
    | nil => cases f2 <;> rfl
    | cons c cs =>
      cases f2 with
      | zero => simp at h2
      | succ g =>
        simp only [pyReplaceFuel]
        split_ifs with hc
        · congr 1
          apply ih
          · simp only [List.length_drop]
            simp only [List.length_cons] at h1
            omega
          · simp only [List.length_drop]
            simp only [List.length_cons] at h2
            omega
        · congr 1
          apply ih
          · simp only [List.length_cons] at h1
            omega
          · simp only [List.length_cons] at h2
            omega

theorem pyReplace_append (old new rest : Str) (h : old ≠ []) :
    pyReplace old new (old ++ rest) = new ++ pyReplace old new rest := by
  cases old with
  | nil => exact absurd rfl h
  | cons o os =>
    show pyReplaceFuel (o :: os) new ((o :: os) ++ rest).length ((o :: os) ++ rest) =
      new ++ pyReplaceFuel (o :: os) new rest.length rest
    have hpre : (o :: os).isPrefixOf ((o :: os) ++ rest) = true :=
      isPrefixOf_append_self (o :: os) rest
    simp only [List.cons_append, List.length_cons] at hpre ⊢
    simp only [pyReplaceFuel]
    rw [if_pos ⟨List.cons_ne_nil o os, hpre⟩]
    congr 1
    simp only [List.length_cons, Nat.add_sub_cancel]
    rw [List.drop_left os rest]
    apply pyReplaceFuel_congr
    · simp only [List.length_append]
      omega
    · exact Nat.le_refl _

theorem quoteChar_safe (c : Char) (h : alwaysSafeByte c.toNat = true) : quoteChar c = [c] := by
  have hlt : c.toNat < 128 := by
    simp [alwaysSafeByte] at h
    omega
  unfold quoteChar utf8Bytes
  rw [if_pos hlt]
  simp only [List.map_cons, List.map_nil, List.flatten_cons, List.flatten_nil]
  unfold quoteByte
  rw [if_pos h]
  simp [Char.ofNat_toNat]

theorem pyQuote_safe (s : Str) (h : ∀ c ∈ s, alwaysSafeByte c.toNat = true) :
    pyQuote s = s := by
  induction s with
  | nil => rfl
  | cons c cs ih =>
    have hc := h c (by simp)
    have hcs : ∀ x ∈ cs, alwaysSafeByte x.toNat = true := fun x hx => h x (by simp [hx])
    have htail := ih hcs
    simp only [pyQuote] at htail ⊢
    simp only [List.map_cons, List.flatten_cons, quoteChar_safe c hc, htail]
    rfl

/-! Claim theorems. -/

/-- C1: the spec claims the snapshot built by poll() never contains a record
whose ref is refs/meta/config, regardless of how many such records the server
returns or where they appear.  The remove-during-iteration loop in
Branches.poll skips the element that shifts into a removed element's place,
so a response consisting of two identical refs/meta/config records leaves one
of them in the snapshot, where it is visible in keys(), in membership, and in
iteration.  This theorem evaluates the code at that failing input. -/
theorem c1_meta_config_survives_poll :
    metaConfig ∈ Branches.keys (Branches.init (str "p") [configRecord, configRecord]).1 ∧
    Branches.contains (Branches.init (str "p") [configRecord, configRecord]).1 metaConfig
      = true ∧
    metaConfig ∈
      (Branches.iter (Branches.init (str "p") [configRecord, configRecord]).1).map
        Branch.ref := by
  decide

/-- C7: the spec's example scenario holds (a single refs/meta/config record
is dropped, keys is [refs/heads/master] and len is 1), but len does not in
general equal the server record count minus the refs/meta/config entries:
for the response [master, config, config] the filtering loop leaves one
config record, so len evaluates to 2 where the claim demands 1. -/
theorem c7_len_example_and_failing_input :
    Branches.keys (Branches.init (str "p") [masterRecord, configRecord]).1 =
      [str "refs/heads/master"] ∧
    Branches.len (Branches.init (str "p") [masterRecord, configRecord]).1 = 1 ∧
    Branches.len (Branches.init (str "p") [masterRecord, configRecord, configRecord]).1
      = 2 ∧
    (List.filter (fun r => !(r.ref == metaConfig))
      [masterRecord, configRecord, configRecord]).length = 1 := by
  decide

/-- C3: neither a remote creation through create nor a deletion through
del branches[key] writes the cached snapshot _data: the collection state
after either operation equals the state before, so keys(), len, membership
and iteration all return exactly what they returned before, until poll() is
called again. -/
theorem c3_create_delete_frame (b : Branches) (name key : Str) (v : Value)
    (resp : BranchRecord) :
    (Branches.create b name v resp).post = b ∧
    (Branches.delItem b key).post = b ∧
    Branches.keys (Branches.create b name v resp).post = Branches.keys b ∧
    Branches.len (Branches.create b name v resp).post = Branches.len b ∧
    (∀ s : Str,
      Branches.contains (Branches.create b name v resp).post s = Branches.contains b s) ∧
    Branches.iter (Branches.delItem b key).post = Branches.iter b := by
  refine ⟨create_post b name v resp, delItem_post b key, ?_, ?_, ?_, ?_⟩ <;>
    simp [create_post, delItem_post]

/-- C10: membership in a Branches collection is an exact full-ref string
match against the cached snapshot: s in branches is true exactly when some
cached record's ref equals s.  The test is total over all strings, with no
refs/heads/ prefix precondition and no error, so a string without the prefix
yields false rather than an invalid-key error. -/
theorem c10_contains_iff (b : Branches) (s : Str) :
    Branches.contains b s = true ↔ ∃ row ∈ b._data, row.ref = s := by
  unfold Branches.contains Branches.keys Branches.iterkeys
  simp [List.mem_map]

/-- C2 counterexample: with refs/heads/b not in the cached snapshot, two
create calls for the same name with no intervening poll do NOT make exactly
one creation request in total: each call issues its own PUT, because the
first call leaves the snapshot unchanged and so the second does not
short-circuit. -/
theorem c2_two_creates_two_requests :
    ¬ ((Branches.create sampleBranches (str "b") sampleInput respB).requests ++
       (Branches.create (Branches.create sampleBranches (str "b") sampleInput respB).post
         (str "b") sampleInput respB).requests).length = 1 := by
  decide

/-- C2 (amended): when the computed ref refs/heads/ + name is already among
the cached keys, create returns the existing cached entry via self[ref],
issues no creation request, and (for payloads passing the mapping check) its
outcome does not depend on the branchInput payload; when the ref is not
cached, each of two successive create calls with the same name and no
intervening poll issues its own creation request, because create never
updates the snapshot. -/
theorem c2_create_short_circuit (b : Branches) (name : Str) (v w : Value)
    (r1 r2 : BranchRecord) (hv : check v = true) (hw : check w = true) :
    ((refsHeads ++ name) ∈ Branches.keys b →
      Branches.create b name v r1 = Branches.getItem b (refsHeads ++ name) ∧
      (Branches.create b name v r1).requests = [] ∧
      Branches.create b name v r1 = Branches.create b name w r2) ∧
    ((refsHeads ++ name) ∉ Branches.keys b →
      (Branches.create b name v r1).requests.length = 1 ∧
      (Branches.create (Branches.create b name v r1).post name w r2).requests.length
        = 1) := by
  have hcv : ¬ check v = false := by simp [hv]
  have hcw : ¬ check w = false := by simp [hw]
  constructor
  · intro hm
    have e1 : Branches.create b name v r1 = Branches.getItem b (refsHeads ++ name) := by
      unfold Branches.create
      rw [if_neg hcv, if_pos hm]
    have e2 : Branches.create b name w r2 = Branches.getItem b (refsHeads ++ name) := by
      unfold Branches.create
      rw [if_neg hcw, if_pos hm]
    exact ⟨e1, by rw [e1, getItem_requests], by rw [e1, e2]⟩
  · intro hm
    have e1 : ∀ u : Value, check u = true → ∀ rr : BranchRecord,
        (Branches.create b name u rr).requests.length = 1 := by
      intro u hu rr
      unfold Branches.create
      rw [if_neg (by simp [hu]), if_neg hm]
      rfl
    refine ⟨e1 v hv r1, ?_⟩
    rw [create_post]
    exact e1 w hw r2

/-- C2 witness: the short-circuit case at a collection whose snapshot already
contains refs/heads/b, with two different mapping payloads. -/
theorem c2_create_short_circuit_witness :
    Branches.create cachedBranches (str "b") sampleInput respB =
      Branches.getItem cachedBranches (refsHeads ++ str "b") ∧
    (Branches.create cachedBranches (str "b") sampleInput respB).requests = [] ∧
    Branches.create cachedBranches (str "b") sampleInput respB =
      Branches.create cachedBranches (str "b") otherInput respX :=
  (c2_create_short_circuit cachedBranches (str "b") sampleInput otherInput respB respX
    (by decide) (by decide)).1 (by decide)

/-- C5: __getitem__ is a three-way case split on the cached snapshot: a ref
without the refs/heads/ prefix signals the invalid-key error with message
"branch ref should start with refs/heads/"; a prefixed ref matching no
cached record signals UnknownBranch carrying the ref; a prefixed ref with a
match returns a Branch parsed from the first matching cached record; no
branch of the operation issues a network request. -/
theorem c5_getitem_three_way (b : Branches) (ref : Str) :
    (refsHeads.isPrefixOf ref = false →
      Branches.getItem b ref =
        { result := .error (.keyError (str "branch ref should start with refs/heads/")),
          post := b, requests := [] }) ∧
    (refsHeads.isPrefixOf ref = true →
      List.filter (fun row => row.ref == ref) b._data = [] →
      Branches.getItem b ref =
        { result := .error (.unknownBranch ref), post := b, requests := [] }) ∧
    (∀ row rest, refsHeads.isPrefixOf ref = true →
      List.filter (fun row => row.ref == ref) b._data = row :: rest →
      Branches.getItem b ref =
        { result := .ok (Branch.parse row b.project), post := b, requests := [] }) := by
  have hmsg : str "branch ref should start with " ++ refsHeads =
      str "branch ref should start with refs/heads/" := by decide
  refine ⟨?_, ?_, ?_⟩
  · intro h
    unfold Branches.getItem
    rw [if_pos h, hmsg]
  · intro h hf
    unfold Branches.getItem
    rw [if_neg (by simp [h]), hf]
  · intro row rest h hf
    unfold Branches.getItem
    rw [if_neg (by simp [h]), hf]

/-- C5 witness: the three cases at concrete refs on a snapshot holding only
refs/heads/master. -/
theorem c5_getitem_three_way_witness :
    Branches.getItem sampleBranches (str "x") =
      { result := .error (.keyError (str "branch ref should start with refs/heads/")),
        post := sampleBranches, requests := [] } ∧
    Branches.getItem sampleBranches (str "refs/heads/doesnotexist") =
      { result := .error (.unknownBranch (str "refs/heads/doesnotexist")),
        post := sampleBranches, requests := [] } ∧
    Branches.getItem sampleBranches (str "refs/heads/master") =
      { result := .ok (Branch.parse masterRecord (str "p")),
        post := sampleBranches, requests := [] } :=
  ⟨(c5_getitem_three_way sampleBranches (str "x")).1 (by decide),
   (c5_getitem_three_way sampleBranches (str "refs/heads/doesnotexist")).2.1
     (by decide) (by decide),
   (c5_getitem_three_way sampleBranches (str "refs/heads/master")).2.2 masterRecord []
     (by decide) (by decide)⟩

/-- C6: for every non-mapping input, get_mergeable_information, cherry_pick
and create signal InvalidArgument and issue no request at all: the mapping
check fails fast before any network call. -/
theorem c6_invalid_argument_fail_fast (br : Branch) (c : Commit) (b : Branches)
    (v : Value) (mi resp : Str) (r0 : BranchRecord) (name : Str)
    (hv : check v = false) :
    Branch.get_mergeable_information br v mi = (.error .invalidArgument, []) ∧
    Commit.cherry_pick c v resp = (.error .invalidArgument, []) ∧
    Branches.create b name v r0 =
      { result := .error .invalidArgument, post := b, requests := [] } := by
  refine ⟨?_, ?_, ?_⟩
  · unfold Branch.get_mergeable_information
    rw [if_pos hv]
  · unfold Commit.cherry_pick
    rw [if_pos hv]
  · unfold Branches.create
    rw [if_pos hv]

/-- C6 witness: the fail-fast behavior at a concrete non-mapping input. -/
theorem c6_invalid_argument_fail_fast_witness :
    Branch.get_mergeable_information mainBranch badInput (str "resp") =
      (.error .invalidArgument, []) ∧
    Commit.cherry_pick sampleCommit badInput (str "resp") =
      (.error .invalidArgument, []) ∧
    Branches.create sampleBranches (str "b") badInput respB =
      { result := .error .invalidArgument, post := sampleBranches, requests := [] } :=
  c6_invalid_argument_fail_fast mainBranch sampleCommit sampleBranches badInput
    (str "resp") (str "resp") respB (str "b") (by decide)

/-- C4 counterexample: Branch.name uses Python str.replace, which removes
every occurrence of refs/heads/, not only a leading prefix: the ref
refs/tags/refs/heads/x does not start with refs/heads/, yet its name is
refs/tags/x rather than the unchanged ref the claim requires. -/
theorem c4_name_counterexample :
    refsHeads.isPrefixOf (str "refs/tags/refs/heads/x") = false ∧
    Branch.name { ref := str "refs/tags/refs/heads/x" } ≠
      str "refs/tags/refs/heads/x" := by
  decide

/-- C4 (amended): name equals ref with every occurrence of refs/heads/
removed (Python str.replace semantics): when refs/heads/ occurs nowhere in
ref, name equals ref unchanged, and when ref is refs/heads/ followed by a
remainder in which refs/heads/ does not occur again, name is exactly that
remainder, the leading prefix stripped — covering the claim's examples
refs/heads/main and refs/heads/feature/x. -/
theorem c4_name_strips_all_occurrences (b : Branch) :
    (occursIn refsHeads b.ref = false → Branch.name b = b.ref) ∧
    (∀ rest : Str, b.ref = refsHeads ++ rest → occursIn refsHeads rest = false →
      Branch.name b = rest) := by
  constructor
  · intro h
    exact pyReplace_not_occurs refsHeads [] b.ref h
  · intro rest hre h
    unfold Branch.name
    rw [hre, pyReplace_append refsHeads [] rest (by decide),
      pyReplace_not_occurs refsHeads [] rest h]
    rfl

/-- C4 witness: the spec's two examples, obtained from the amended theorem. -/
theorem c4_name_strips_all_occurrences_witness :
    Branch.name { ref := str "refs/heads/main" } = str "main" ∧
    Branch.name { ref := str "refs/heads/feature/x" } = str "feature/x" :=
  ⟨(c4_name_strips_all_occurrences { ref := str "refs/heads/main" }).2 (str "main")
     (by decide) (by decide),
   (c4_name_strips_all_occurrences { ref := str "refs/heads/feature/x" }).2
     (str "feature/x") (by decide) (by decide)⟩

/-- C8 counterexample: the claim says every character of the file path is
percent-escaped before insertion; for the one-character file path a, the
request issued by get_file_content contains the letter a unescaped, not the
fully-escaped %61 form the claim predicts. -/
theorem c8_quote_counterexample :
    ((Branch.get_file_content mainBranch (str "a") (str "resp")).2.map
      Request.endpoint) = [str "/projects/p/branches/main/files/a/content"] ∧
    ((Branch.get_file_content mainBranch (str "a") (str "resp")).2.map
      Request.endpoint) ≠ [str "/projects/p/branches/main/files/%61/content"] := by
  decide

/-- C8 (amended): both get_file_content operations build their request from
the fixed template with the file argument quoted by urllib quote with the
empty safe set, and return the decoded response body unchanged (base64 not
further decoded); the quoting escapes every byte except the always-safe
characters (letters, digits, underscore, dot, hyphen, tilde), so a path of
only always-safe characters passes through unchanged while the path
separator is escaped to %2F. -/
theorem c8_file_content_contract (b : Branch) (c : Commit) (file resp : Str) :
    (Branch.get_file_content b file resp).1 = resp ∧
    (Branch.get_file_content b file resp).2.map Request.endpoint =
      [str "/projects/" ++ b.project ++ str "/branches/" ++ Branch.name b ++
        str "/files/" ++ pyQuote file ++ str "/content"] ∧
    (Commit.get_file_content c file resp).1 = resp ∧
    (Commit.get_file_content c file resp).2.map Request.endpoint =
      [str "/projects/" ++ c.project ++ str "/commits/" ++ c.commit ++
        str "/files/" ++ pyQuote file ++ str "/content"] ∧
    ((∀ ch ∈ file, alwaysSafeByte ch.toNat = true) → pyQuote file = file) ∧
    pyQuote (str "/") = str "%2F" := by
  refine ⟨rfl, rfl, rfl, rfl, ?_, by decide⟩
  exact fun h => pyQuote_safe file h

/-- C8 witness: at the all-safe path a.txt the quoted form is unchanged and
the response body is passed through. -/
theorem c8_file_content_contract_witness :
    pyQuote (str "a.txt") = str "a.txt" ∧
    (Branch.get_file_content mainBranch (str "a.txt") (str "resp")).1 = str "resp" :=
  ⟨(c8_file_content_contract mainBranch sampleCommit (str "a.txt")
      (str "resp")).2.2.2.2.1 (by decide),
   (c8_file_content_contract mainBranch sampleCommit (str "a.txt") (str "resp")).1⟩

/-- C9 counterexample: for the key refs/heads/refs/heads/x, which does start
with the prefix, __setitem__ removes every occurrence of refs/heads/ from
the key and so delegates to create with name x, issuing a PUT on
/projects/p/branches/x, not the leading-prefix-stripped name refs/heads/x
the claim requires. -/
theorem c9_setitem_counterexample :
    ((Branches.setItem sampleBranches (str "refs/heads/refs/heads/x") sampleInput
        respX).requests.map Request.endpoint) = [str "/projects/p/branches/x"] ∧
    ((Branches.setItem sampleBranches (str "refs/heads/refs/heads/x") sampleInput
        respX).requests.map Request.endpoint) ≠
      [str "/projects/p/branches/refs/heads/x"] := by
  decide

/-- C9 (amended): a key without the refs/heads/ prefix signals the
invalid-key error before create is consulted; a key with the prefix
delegates to create with every occurrence of refs/heads/ removed from the
key — equal to the leading prefix stripped whenever refs/heads/ does not
occur in the remainder — passing the value as the BranchInput payload and
discarding create's result, so the assignment yields no Branch handle. -/
theorem c9_setitem_delegates (b : Branches) (key : Str) (v : Value)
    (resp : BranchRecord) :
    (refsHeads.isPrefixOf key = false →
      Branches.setItem b key v resp =
        { result := .error (.keyError (str "branch ref should start with refs/heads/")),
          post := b, requests := [] }) ∧
    (∀ rest : Str, key = refsHeads ++ rest → occursIn refsHeads rest = false →
      Branches.setItem b key v resp =
        { result := (Branches.create b rest v resp).result.map (fun _ => ()),
          post := (Branches.create b rest v resp).post,
          requests := (Branches.create b rest v resp).requests }) := by
  have hmsg : str "branch ref should start with " ++ refsHeads =
      str "branch ref should start with refs/heads/" := by decide
  constructor
  · intro h
    unfold Branches.setItem
    rw [if_pos h, hmsg]
  · intro rest hk h
    subst hk
    unfold Branches.setItem
    rw [if_neg (by simp [isPrefixOf_append_self])]
    have hrepl : pyReplace refsHeads [] (refsHeads ++ rest) = rest := by
      rw [pyReplace_append refsHeads [] rest (by decide),
        pyReplace_not_occurs refsHeads [] rest h]
      rfl
    rw [hrepl]

/-- C9 witness: both cases of the amended theorem at concrete keys. -/
theorem c9_setitem_delegates_witness :
    Branches.setItem sampleBranches (str "x") sampleInput respX =
      { result := .error (.keyError (str "branch ref should start with refs/heads/")),
        post := sampleBranches, requests := [] } ∧
    Branches.setItem sampleBranches (str "refs/heads/b") sampleInput respB =
      { result := (Branches.create sampleBranches (str "b") sampleInput respB).result.map
          (fun _ => ()),
        post := (Branches.create sampleBranches (str "b") sampleInput respB).post,
        requests :=
          (Branches.create sampleBranches (str "b") sampleInput respB).requests } :=
  ⟨(c9_setitem_delegates sampleBranches (str "x") sampleInput respX).1 (by decide),
   (c9_setitem_delegates sampleBranches (str "refs/heads/b") sampleInput respB).2
     (str "b") (by decide) (by decide)⟩
